import Mathlib

/-!
Verification development for the conversational AI gateway service
(`backend/services/ai`).  The Python sources are shallowly embedded:

* Python `str` values are modelled as `List Char`;
* Python `float` confidence scores are modelled as `ℚ` (the reference
  arithmetic of the spec's exact-mean and threshold rules);
* `UUID` values and timestamps are modelled as `ℕ` (only identity and
  ordering matter to the claims);
* fallible code (Python `raise`) is modelled with `Except`;
* external collaborators (`json.loads`, `zlib`, the Redis backend, the
  language-model provider) are passed in as explicit function or result
  parameters, exactly where the source calls out to them.

Definitions mirror `src/models/intent.py`, `src/models/conversation.py`,
`src/services/context_service.py` and `src/services/llm_service.py`;
each definition names the source symbol it embeds.
-/

/-- Character-list form of a string literal. -/
def chars (s : String) : List Char := s.data

/-- `IntentType` enum, identical in `models/intent.py` and
`models/conversation.py` (greeting, question, complaint, request_human,
farewell, unknown). -/
inductive IntentType where
  | greeting
  | question
  | complaint
  | request_human
  | farewell
  | unknown
deriving DecidableEq

/-- Metadata values consulted by the handoff rules and stamped by the
intent constructor: numbers, booleans and strings.  (Python allows
arbitrary values; numeric comparison of other types would raise
`TypeError`, so the embedding restricts the universe to the types the
code meaningfully handles.) -/
inductive MetaV where
  | num (q : ℚ)
  | boolv (b : Bool)
  | strv (s : List Char)
deriving DecidableEq

/-- Python `dict` with string keys, as an association list with unique
keys in insertion order. -/
abbrev MetaDict := List (List Char × MetaV)

/-- `dict.get key` (no default): first binding of the key. -/
def dictGet : MetaDict → List Char → Option MetaV
  | [], _ => none
  | (k, v) :: rest, key => if k = key then some v else dictGet rest key

/-- `dict[key] = val` / `dict.update({key: val})`: overwrite the binding
in place when the key exists, append it otherwise. -/
def dictSet : MetaDict → List Char → MetaV → MetaDict
  | [], key, val => [(key, val)]
  | (k, v) :: rest, key, val =>
      if k = key then (k, val) :: rest else (k, v) :: dictSet rest key val

/-- Python numeric coercion used by `<` on metadata values:
`bool` is an `int` subtype (`True == 1`, `False == 0`). -/
def MetaV.toRat : MetaV → ℚ
  | .num q => q
  | .boolv b => if b then 1 else 0
  | .strv _ => 0

/-- Python truthiness of a metadata value (`if value:`). -/
def MetaV.truthy : MetaV → Bool
  | .num q => decide (q ≠ 0)
  | .boolv b => b
  | .strv s => decide (s ≠ [])

namespace IntentPy

/-- `Intent` Pydantic model of `models/intent.py`: type, confidence in
[0,1], requires_human flag, metadata dict. -/
structure Intent where
  type : IntentType
  confidence : ℚ
  requires_human : Bool
  metadata : MetaDict
deriving DecidableEq

/-- `Intent.__init__` metadata stamping (`models/intent.py` lines 75-90):
`metadata.update({'created_at': <utcnow isoformat>, 'model_version': '1.0.0'})`
applied to the caller-supplied metadata (default `{}`). -/
def initMetadata (caller : MetaDict) (nowIso : List Char) : MetaDict :=
  dictSet (dictSet caller (chars "created_at") (MetaV.strv nowIso))
    (chars "model_version") (MetaV.strv (chars "1.0.0"))

/-- `Intent(**data)` constructor of `models/intent.py`: stamps the
metadata, then Pydantic validates `confidence` against `ge=0.0, le=1.0`
(construction fails outside the range). -/
def mkIntent (type : IntentType) (confidence : ℚ) (requires_human : Bool)
    (metadata : Option MetaDict) (nowIso : List Char) :
    Except (List Char) Intent :=
  if 0 ≤ confidence ∧ confidence ≤ 1 then
    .ok { type := type, confidence := confidence,
          requires_human := requires_human,
          metadata := initMetadata (metadata.getD []) nowIso }
  else
    .error (chars "confidence must be between 0 and 1")

/-- `Intent.should_handoff(confidence_threshold=0.7)` of
`models/intent.py` lines 92-124: validates the threshold, then checks in
order the requires_human flag, the confidence threshold, the
request_human type, and the low-confidence complaint rule. -/
def Intent.should_handoff (self : Intent) (confidence_threshold : ℚ) :
    Except (List Char) Bool :=
  if ¬ (0 ≤ confidence_threshold ∧ confidence_threshold ≤ 1) then
    .error (chars "Confidence threshold must be between 0 and 1")
  else if self.requires_human then .ok true
  else if self.confidence < confidence_threshold then .ok true
  else if self.type = IntentType.request_human then .ok true
  else if self.type = IntentType.complaint ∧ self.confidence < 9/10 then .ok true
  else .ok false

end IntentPy

namespace ConvPy

/-- `MessageDirection` enum of `models/conversation.py`. -/
inductive MessageDirection where
  | inbound
  | outbound
deriving DecidableEq

/-- `ConversationStatus` enum of `models/conversation.py`. -/
inductive ConversationStatus where
  | active
  | human_needed
  | completed
  | archived
deriving DecidableEq

/-- `Intent` Pydantic model of `models/conversation.py` (the second,
near-duplicate intent class; plain Pydantic constructor, no metadata
stamping). -/
structure Intent where
  type : IntentType
  confidence : ℚ
  requires_human : Bool
  metadata : MetaDict
deriving DecidableEq

/-- `Intent.should_handoff()` of `models/conversation.py` lines 62-86:
requires_human flag, fixed threshold `DEFAULT_HANDOFF_THRESHOLD = 0.7`,
request_human type, then the metadata triggers
`metadata.get("sentiment_score", 1.0) < 0.3` and the truthiness of
`metadata.get("urgent", False)`.  (No complaint rule, no threshold
parameter.) -/
def Intent.should_handoff (self : Intent) : Bool :=
  if self.requires_human then true
  else if self.confidence < 7/10 then true
  else if self.type = IntentType.request_human then true
  else if ((dictGet self.metadata (chars "sentiment_score")).getD
      (MetaV.num 1)).toRat < 3/10 then true
  else if ((dictGet self.metadata (chars "urgent")).getD
      (MetaV.boolv false)).truthy then true
  else false

/-- `Message` Pydantic model of `models/conversation.py`: all fields as
declared; `id`, `conversation_id`, `content`, `direction` and
`ai_confidence` are required fields. -/
structure Message where
  id : ℕ
  conversation_id : ℕ
  content : List Char
  direction : MessageDirection
  ai_confidence : ℚ
  intent : Option Intent
  metadata : MetaDict
  created_at : ℕ
  updated_at : ℕ
deriving DecidableEq

/-- `Conversation` Pydantic model of `models/conversation.py`
(`ai_confidence_avg` defaults to 1.0, `status` to active, `messages`
to []). -/
structure Conversation where
  id : ℕ
  lead_id : ℕ
  status : ConversationStatus
  messages : List Message
  current_intent : Option Intent
  human_agent_id : Option ℕ
  ai_confidence_avg : ℚ
  metadata : MetaDict
  created_at : ℕ
  updated_at : ℕ
deriving DecidableEq

/-- `Conversation.add_message` of `models/conversation.py` lines
185-213.  The mismatched-conversation check is the first statement of
the method, before any mutation, so the error branch returns no updated
state.  Afterwards: append, recompute the running average with the
post-append count, adopt the message's intent (transitioning to
human_needed when that intent's `should_handoff()` holds), stamp
`updated_at`. -/
def add_message (self : Conversation) (message : Message) (now : ℕ) :
    Except (List Char) Conversation :=
  if message.conversation_id ≠ self.id then
    .error (chars "Message belongs to different conversation")
  else
    let messages := self.messages ++ [message]
    let message_count : ℕ := messages.length
    let avg : ℚ :=
      (self.ai_confidence_avg * ((message_count - 1 : ℕ) : ℚ)
        + message.ai_confidence) / (message_count : ℚ)
    match message.intent with
    | some intent =>
        if intent.should_handoff then
          .ok { self with
                messages := messages, ai_confidence_avg := avg,
                current_intent := some intent,
                status := ConversationStatus.human_needed, updated_at := now }
        else
          .ok { self with
                messages := messages, ai_confidence_avg := avg,
                current_intent := some intent, updated_at := now }
    | none =>
        .ok { self with
              messages := messages, ai_confidence_avg := avg,
              updated_at := now }

/-- Sequential `add_message` calls for a batch of messages (the caller
loop of the tests, e.g. `test_context_management`). -/
def addMessages (self : Conversation) (ms : List Message) (now : ℕ) :
    Except (List Char) Conversation :=
  ms.foldlM (fun c m => add_message c m now) self

end ConvPy

/-- JSON values, the contents of the cache payloads and of the
language-model classifier output (external `json` library values). -/
inductive Json where
  | null
  | jbool (b : Bool)
  | num (q : ℚ)
  | str (s : List Char)
  | arr (xs : List Json)
  | obj (kvs : List (List Char × Json))

/-- `dict[key]` lookup on a parsed JSON object. -/
def jsonGet : List (List Char × Json) → List Char → Option Json
  | [], _ => none
  | (k, v) :: rest, key => if k = key then some v else jsonGet rest key

/-- `dict[key] = val` on a parsed JSON object. -/
def jsonSet : List (List Char × Json) → List Char → Json → List (List Char × Json)
  | [], key, val => [(key, val)]
  | (k, v) :: rest, key, val =>
      if k = key then (k, val) :: rest else (k, v) :: jsonSet rest key val

namespace CtxSvc

/-- The `"compressed:"` marker written by `update_context`
(`context_service.py` line 188); note it is 11 characters long. -/
def compressedMarker : List Char := chars "compressed:"

/-- Circuit-breaker state (`context_service.py` lines 85-91); the
`threshold` and `reset_timeout` entries are the constants 3 and 30. -/
structure CircuitBreaker where
  failures : ℕ
  last_failure : Option ℕ
deriving DecidableEq

/-- The state installed by `__init__` and by a breaker reset. -/
def initialBreaker : CircuitBreaker := { failures := 0, last_failure := none }

/-- `_record_failure` (lines 291-294). -/
def recordFailure (cb : CircuitBreaker) (now : ℕ) : CircuitBreaker :=
  { failures := cb.failures + 1, last_failure := some now }

/-- `_is_circuit_open` (lines 274-289).  Python computes
`(utcnow() - last_failure).seconds`, the seconds *component* of the
timedelta, i.e. the elapsed whole seconds modulo 86400.  The check
mutates (it resets the breaker once the timeout has passed), so the
embedding returns the flag together with the updated state. -/
def isCircuitOpen (cb : CircuitBreaker) (now : ℕ) : Bool × CircuitBreaker :=
  match cb.last_failure with
  | none => (false, cb)
  | some t =>
      if 3 ≤ cb.failures then
        if (now - t) % 86400 < 30 then (true, cb)
        else (false, initialBreaker)
      else (false, cb)

/-- Cache-layer errors: `RedisError` and `ValueError` (the message
strings carried by the Python exceptions are dropped). -/
inductive CtxErr where
  | redisError
  | valueError
deriving DecidableEq

/-- Stand-in for `datetime.utcnow().isoformat()` values inside JSON
payloads (injective in the timestamp). -/
def isoTime (t : ℕ) : Json := Json.num t

/-- The fresh empty context returned on a cache miss
(`get_conversation_context` lines 121-126). -/
def emptyContext (now : ℕ) : Json :=
  Json.obj [(chars "messages", Json.arr []),
            (chars "metadata", Json.obj []),
            (chars "created_at", isoTime now)]

/-- Read-side decoding of a non-empty raw payload
(`get_conversation_context` lines 128-138): when the payload starts with
the marker, take `raw_data[10:]` (drop 10 characters) and decompress,
then JSON-parse; otherwise JSON-parse directly.  `loads` and
`decompress` model the external `json.loads` and `zlib.decompress`
(`none` = the library call raises); either failure is turned into the
`ValueError("Invalid context data: ...")` of line 138. -/
def decodePayload (loads : List Char → Option Json)
    (decompress : List Char → Option (List Char)) (raw : List Char) :
    Except CtxErr Json :=
  if compressedMarker.isPrefixOf raw then
    match decompress (raw.drop 10) with
    | none => .error .valueError
    | some plain =>
        match loads plain with
        | none => .error .valueError
        | some ctx => .ok ctx
  else
    match loads raw with
    | none => .error .valueError
    | some ctx => .ok ctx

/-- `get_conversation_context` (lines 93-148).  `backend` is the outcome
of the `redis_client.get` call (`.error` = `RedisError`, `.ok none` =
key absent, `.ok (some raw)` = stored string).  A circuit-open
rejection is raised as a `RedisError` inside the `try`, so the
`except RedisError` handler records it as a further failure before
re-raising; a backend failure likewise records a failure; the corrupt
payload `ValueError` is not a `RedisError` and records nothing.  Python
reaches the miss branch via `if not raw_data:`, which is also taken by
a stored *empty* string (falsy). -/
def getConversationContext (loads : List Char → Option Json)
    (decompress : List Char → Option (List Char)) (cb : CircuitBreaker)
    (now : ℕ) (backend : Except Unit (Option (List Char))) :
    Except CtxErr Json × CircuitBreaker :=
  let checked := isCircuitOpen cb now
  if checked.1 then
    (.error .redisError, recordFailure checked.2 now)
  else
    match backend with
    | .error _ => (.error .redisError, recordFailure checked.2 now)
    | .ok none => (.ok (emptyContext now), checked.2)
    | .ok (some raw) =>
        if raw = [] then (.ok (emptyContext now), checked.2)
        else (decodePayload loads decompress raw, checked.2)

/-- The metadata stamping of `update_context` (lines 173-175):
`context['updated_at'] = utcnow().isoformat(); context['version'] = "1.0"`;
a non-dict context raises `ValueError` (lines 170-171). -/
def stampContext (context : Json) (now : ℕ) : Except CtxErr Json :=
  match context with
  | Json.obj kvs =>
      .ok (Json.obj (jsonSet (jsonSet kvs (chars "updated_at") (isoTime now))
        (chars "version") (Json.str (chars "1.0"))))
  | _ => .error .valueError

/-- Store-side payload selection of `update_context` (lines 177-188):
compress when the serialized size exceeds `compression_threshold = 1024`
and the compression achieves ratio < 0.9, prepending the marker.
(`compress` models `zlib.compress`; the `.decode()` / `.encode()` UTF-8
round-trip the source applies to the raw zlib bytes is modelled as the
identity on character lists — generously, since a UTF-8 decode of
arbitrary zlib output in fact raises `UnicodeDecodeError`.) -/
def storedData (compress : List Char → List Char) (context_data : List Char) :
    List Char :=
  if 1024 < context_data.length ∧
      ((compress context_data).length : ℚ) / (context_data.length : ℚ) < 9/10 then
    compressedMarker ++ compress context_data
  else
    context_data

/-- `update_context` (lines 150-206): stamp, serialize with `json.dumps`
(the `dumps` parameter), choose the stored payload, store via `setex`
(the `backend` parameter maps the stored string to the Redis call's
outcome).  There is no circuit-breaker check on this path; a Redis
failure records a breaker failure. -/
def updateContext (dumps : Json → List Char) (compress : List Char → List Char)
    (cb : CircuitBreaker) (now : ℕ) (context : Json)
    (backend : List Char → Except Unit Bool) :
    Except CtxErr Bool × CircuitBreaker :=
  match stampContext context now with
  | .error e => (.error e, cb)
  | .ok stamped =>
      match backend (storedData compress (dumps stamped)) with
      | .error _ => (.error .redisError, recordFailure cb now)
      | .ok success => (.ok success, cb)

/-- One windowed message of the context projection
(`build_context` lines 247-253). -/
structure CtxMessage where
  content : List Char
  direction : ConvPy.MessageDirection
  created_at : ℕ
  ai_confidence : ℚ
deriving DecidableEq

/-- The metadata of the context projection (lines 256-261 and 266-270):
the optional current-intent summary holds only the type and the
confidence. -/
structure CtxMetadata where
  lead_id : ℕ
  status : ConvPy.ConversationStatus
  ai_confidence_avg : ℚ
  message_count : ℕ
  current_intent : Option (IntentType × ℚ)
deriving DecidableEq

/-- The context projection built by `build_context`. -/
structure Context where
  messages : List CtxMessage
  metadata : CtxMetadata
  created_at : ℕ
deriving DecidableEq

/-- `build_context` (lines 235-272): pure projection of a conversation —
the last 10 messages (`conversation.messages[-10:]`), the metadata with
the *full* message count, and the current intent reduced to type and
confidence when present. -/
def buildContext (conversation : ConvPy.Conversation) (now : ℕ) : Context :=
  { messages :=
      (conversation.messages.drop (conversation.messages.length - 10)).map
        (fun msg =>
          { content := msg.content, direction := msg.direction,
            created_at := msg.created_at, ai_confidence := msg.ai_confidence }),
    metadata :=
      { lead_id := conversation.lead_id, status := conversation.status,
        ai_confidence_avg := conversation.ai_confidence_avg,
        message_count := conversation.messages.length,
        current_intent :=
          conversation.current_intent.map (fun i => (i.type, i.confidence)) },
    created_at := now }

end CtxSvc

namespace LLMSvc

/-- The fixed handoff placeholder content (`llm_service.py` line 163). -/
def handoffContent : List Char := chars "Connecting you with a human agent..."

/-- Python exception kinds raised by the service paths modelled here:
Pydantic `ValidationError`, `TypeError` (subscripting a non-dict) and
`ValueError` (empty generation). -/
inductive PyErr where
  | validationError
  | typeError
  | valueError
deriving DecidableEq

/-- `IntentType(value)` coercion of a JSON string to the enum of
`models/conversation.py` (Pydantic validates string enum members by
value). -/
def intentTypeOfStr (s : List Char) : Option IntentType :=
  if s = chars "greeting" then some .greeting
  else if s = chars "question" then some .question
  else if s = chars "complaint" then some .complaint
  else if s = chars "request_human" then some .request_human
  else if s = chars "farewell" then some .farewell
  else if s = chars "unknown" then some .unknown
  else none

/-- Pydantic construction
`Intent(type=result['type'], confidence=result['confidence'], requires_human=result['requires_human'])`
(`llm_service.py` lines 225-229) from JSON field values: the type must
be a string naming an `IntentType` member, the confidence a number in
[0,1] (`ge=0.0, le=1.0`), the flag a boolean; anything else fails
validation.  (Pydantic's lax coercions of numeric strings etc. are not
modelled; no theorem below depends on them.)  `metadata` takes its
`default_factory=dict` value. -/
def mkIntentFromJson (tv cv rv : Json) : Except PyErr ConvPy.Intent :=
  match tv, cv, rv with
  | Json.str s, Json.num q, Json.jbool b =>
      match intentTypeOfStr s with
      | some t =>
          if 0 ≤ q ∧ q ≤ 1 then
            .ok { type := t, confidence := q, requires_human := b, metadata := [] }
          else .error .validationError
      | none => .error .validationError
  | _, _, _ => .error .validationError

/-- The degraded intent `Intent(type=UNKNOWN, confidence=0.0, requires_human=True)`
of `llm_service.py` lines 234-238. -/
def fallbackIntent : ConvPy.Intent :=
  { type := IntentType.unknown, confidence := 0, requires_human := true,
    metadata := [] }

/-- `classify_intent` (`llm_service.py` lines 183-242), as a function of
the `json.loads` outcome on the model response content (`.error` models
a raised `JSONDecodeError`).  The `try` around lines 218-238 catches
only `json.JSONDecodeError` and `KeyError`: a parse failure or a missing
`result[...]` key degrades to the fallback intent; but subscripting a
non-dict JSON value raises `TypeError`, and invalid field values raise
Pydantic `ValidationError` — neither is caught, so both propagate. -/
def classifyIntent (parsed : Except Unit Json) : Except PyErr ConvPy.Intent :=
  match parsed with
  | .error _ => .ok fallbackIntent
  | .ok (Json.obj kvs) =>
      match jsonGet kvs (chars "type"), jsonGet kvs (chars "confidence"),
          jsonGet kvs (chars "requires_human") with
      | some tv, some cv, some rv => mkIntentFromJson tv cv rv
      | _, _, _ => .ok fallbackIntent
  | .ok _ => .error .typeError

/-- Pydantic construction of a `Message` from the keyword arguments the
service supplies (`models/conversation.py` lines 88-115): the required
fields `id`, `conversation_id`, `content`, `direction`, `ai_confidence`
fail validation when absent, `content` has `min_length=1`,
`ai_confidence` is bounded to [0,1], `metadata` defaults to `{}` and the
timestamps to now. -/
def mkMessage (idArg conversationIdArg : Option ℕ)
    (contentArg : Option (List Char)) (directionArg : Option ConvPy.MessageDirection)
    (aiConfidenceArg : Option ℚ) (intent : Option ConvPy.Intent) (now : ℕ) :
    Except PyErr ConvPy.Message :=
  match idArg, conversationIdArg, contentArg, directionArg, aiConfidenceArg with
  | some i, some cid, some content, some direction, some conf =>
      if content = [] then .error .validationError
      else if 0 ≤ conf ∧ conf ≤ 1 then
        .ok { id := i, conversation_id := cid, content := content,
              direction := direction, ai_confidence := conf, intent := intent,
              metadata := [], created_at := now, updated_at := now }
      else .error .validationError
  | _, _, _, _, _ => .error .validationError

/-- `process_message` (`llm_service.py` lines 113-181), from the point
where the intent has been classified (`classified` is the outcome of the
`classify_intent` call; a raised exception propagates through the
re-raising handlers).  When `intent.confidence >= 0.7 and not
intent.should_handoff()`, the generator is called — `genText` models the
stripped `generate_response` text, which raises `ValueError` when empty
(lines 287-289) — and the reply `Message` is constructed; otherwise the
fixed handoff placeholder `Message` is constructed without any
generation call.  Both `Message(...)` construction calls at lines
152-158 and 161-167 pass `conversation_id`, `content`, `direction`,
`ai_confidence` and `intent` but omit the required `id` field. -/
def processMessage (conversation : ConvPy.Conversation)
    (classified : Except PyErr ConvPy.Intent) (genText : List Char) (now : ℕ) :
    Except PyErr (ConvPy.Message × ConvPy.Intent) :=
  match classified with
  | .error e => .error e
  | .ok intent =>
      if 7/10 ≤ intent.confidence ∧ ¬ intent.should_handoff then
        if genText = [] then .error .valueError
        else
          match mkMessage none (some conversation.id) (some genText)
              (some .outbound) (some intent.confidence) (some intent) now with
          | .error e => .error e
          | .ok response => .ok (response, intent)
      else
        match mkMessage none (some conversation.id) (some handoffContent)
            (some .outbound) (some intent.confidence) (some intent) now with
        | .error e => .error e
        | .ok response => .ok (response, intent)

end LLMSvc

/-- Modelled from the spec (§4.1), for comparison with the two source
predicates: the single six-rule intent-level handoff predicate —
requires_human set; confidence below the threshold; type request_human;
type complaint with confidence below 0.9; metadata-declared
sentiment_score below 0.3; metadata-declared urgent equal to true. -/
def specShouldHandoff (type : IntentType) (confidence : ℚ)
    (requires_human : Bool) (metadata : MetaDict) (threshold : ℚ) : Bool :=
  requires_human
  || decide (confidence < threshold)
  || decide (type = IntentType.request_human)
  || (decide (type = IntentType.complaint) && decide (confidence < 9/10))
  || (match dictGet metadata (chars "sentiment_score") with
      | some (MetaV.num q) => decide (q < 3/10)
      | _ => false)
  || decide (dictGet metadata (chars "urgent") = some (MetaV.boolv true))

instance {ε α : Type} [DecidableEq ε] [DecidableEq α] :
    DecidableEq (Except ε α) := fun a b =>
  match a, b with
  | .ok x, .ok y =>
      if h : x = y then isTrue (by rw [h])
      else isFalse (by intro hh; cases hh; exact h rfl)
  | .error e, .error f =>
      if h : e = f then isTrue (by rw [h])
      else isFalse (by intro hh; cases hh; exact h rfl)
  | .ok _, .error _ => isFalse (by intro hh; cases hh)
  | .error _, .ok _ => isFalse (by intro hh; cases hh)

theorem dictGet_dictSet_self (d : MetaDict) (k : List Char) (v : MetaV) :
    dictGet (dictSet d k v) k = some v := by
  induction d with
  | nil => simp [dictSet, dictGet]
  | cons head rest ih =>
      obtain ⟨k2, v2⟩ := head
      by_cases h : k2 = k
      · simp [dictSet, dictGet, h]
      · simp [dictSet, dictGet, h, ih]

theorem dictGet_dictSet_of_ne (d : MetaDict) (k k2 : List Char) (v : MetaV)
    (h : k ≠ k2) : dictGet (dictSet d k v) k2 = dictGet d k2 := by
  induction d with
  | nil => simp [dictSet, dictGet, h]
  | cons head rest ih =>
      obtain ⟨k3, v3⟩ := head
      by_cases h3 : k3 = k
      · subst h3
        simp [dictSet, dictGet, h]
      · simp [dictSet, dictGet, h3, ih]

theorem dictSet_ne_nil (d : MetaDict) (k : List Char) (v : MetaV) :
    dictSet d k v ≠ [] := by
  cases d with
  | nil => simp [dictSet]
  | cons head rest =>
      obtain ⟨k2, v2⟩ := head
      by_cases h : k2 = k <;> simp [dictSet, h]

/-- C10: every `Intent` successfully built by the constructor of
`models/intent.py` carries metadata whose `created_at` key holds the
construction timestamp and whose `model_version` key holds `"1.0.0"`,
with caller-supplied values under those keys overwritten; hence the
metadata is never the empty mapping. -/
theorem c10_constructor_metadata (type : IntentType) (confidence : ℚ)
    (requires_human : Bool) (metadata : Option MetaDict) (nowIso : List Char)
    (i : IntentPy.Intent)
    (h : IntentPy.mkIntent type confidence requires_human metadata nowIso
      = Except.ok i) :
    dictGet i.metadata (chars "created_at") = some (MetaV.strv nowIso)
    ∧ dictGet i.metadata (chars "model_version")
        = some (MetaV.strv (chars "1.0.0"))
    ∧ i.metadata ≠ [] := by
  unfold IntentPy.mkIntent at h
  split at h
  · cases h
    refine ⟨?_, ?_, ?_⟩
    · rw [IntentPy.initMetadata,
        dictGet_dictSet_of_ne _ _ _ _ (by decide), dictGet_dictSet_self]
    · rw [IntentPy.initMetadata, dictGet_dictSet_self]
    · exact dictSet_ne_nil _ _ _
  · cases h

/-- Witness for C10: a caller supplying conflicting `model_version` and
`created_at` metadata entries still gets the stamped values back. -/
theorem c10_constructor_metadata_witness :
    IntentPy.mkIntent IntentType.question (1/2) false
        (some [(chars "model_version", MetaV.strv (chars "9.9.9")),
               (chars "created_at", MetaV.strv (chars "old"))])
        (chars "2024-01-01T00:00:00")
      = Except.ok { type := IntentType.question,
                    confidence := 1/2,
                    requires_human := false,
                    metadata := [(chars "model_version",
                                  MetaV.strv (chars "1.0.0")),
                                 (chars "created_at",
                                  MetaV.strv (chars "2024-01-01T00:00:00"))] }
    ∧ dictGet [(chars "model_version", MetaV.strv (chars "1.0.0")),
               (chars "created_at", MetaV.strv (chars "2024-01-01T00:00:00"))]
        (chars "created_at")
        = some (MetaV.strv (chars "2024-01-01T00:00:00")) := by
  constructor
  · with_unfolding_all decide
  · exact (c10_constructor_metadata IntentType.question (1/2) false
      (some [(chars "model_version", MetaV.strv (chars "9.9.9")),
             (chars "created_at", MetaV.strv (chars "old"))])
      (chars "2024-01-01T00:00:00")
      { type := IntentType.question,
        confidence := 1/2,
        requires_human := false,
        metadata := [(chars "model_version", MetaV.strv (chars "1.0.0")),
                     (chars "created_at",
                      MetaV.strv (chars "2024-01-01T00:00:00"))] }
      (by with_unfolding_all decide)).1

/-- C4: `add_message` on a message whose `conversation_id` differs from
the conversation's own id fails with the `ValueError` of
`models/conversation.py` line 192; the ownership check is the first
statement of the method, so the error branch produces no updated
conversation state (message list, average, intent and status are
untouched). -/
theorem c4_mismatched_conversation (conv : ConvPy.Conversation)
    (m : ConvPy.Message) (now : ℕ) (h : m.conversation_id ≠ conv.id) :
    ConvPy.add_message conv m now
      = Except.error (chars "Message belongs to different conversation")
    ∧ ∀ updated, ConvPy.add_message conv m now ≠ Except.ok updated := by
  have herr : ConvPy.add_message conv m now
      = Except.error (chars "Message belongs to different conversation") := by
    unfold ConvPy.add_message
    rw [if_pos h]
  exact ⟨herr, fun updated hok => by rw [herr] at hok; cases hok⟩

/-- Witness for C4 at a concrete mismatched pair. -/
theorem c4_mismatched_conversation_witness :
    (2 : ℕ) ≠ 1
    ∧ ConvPy.add_message
        { id := 1, lead_id := 3, status := ConvPy.ConversationStatus.active,
          messages := [], current_intent := none, human_agent_id := none,
          ai_confidence_avg := 1, metadata := [], created_at := 0,
          updated_at := 0 }
        { id := 9, conversation_id := 2, content := chars "hi",
          direction := ConvPy.MessageDirection.inbound, ai_confidence := 1,
          intent := none, metadata := [], created_at := 0, updated_at := 0 } 0
      = Except.error (chars "Message belongs to different conversation") :=
  ⟨by decide,
   (c4_mismatched_conversation _ _ 0 (by decide)).1⟩

/-- C7: `build_context` is a pure projection returning at most the 10
most recent messages, a metadata block whose `message_count` is the full
conversation length, and a current-intent summary carrying only the
intent's type and confidence. -/
theorem c7_build_context (conversation : ConvPy.Conversation) (now : ℕ) :
    (CtxSvc.buildContext conversation now).messages.length ≤ 10
    ∧ (CtxSvc.buildContext conversation now).messages
        <:+ conversation.messages.map (fun msg =>
          ({ content := msg.content, direction := msg.direction,
             created_at := msg.created_at, ai_confidence := msg.ai_confidence }
            : CtxSvc.CtxMessage))
    ∧ (CtxSvc.buildContext conversation now).messages.length
        = min conversation.messages.length 10
    ∧ (CtxSvc.buildContext conversation now).metadata.message_count
        = conversation.messages.length
    ∧ (CtxSvc.buildContext conversation now).metadata.current_intent
        = conversation.current_intent.map (fun i => (i.type, i.confidence)) := by
  refine ⟨?_, ?_, ?_, rfl, rfl⟩
  · simp only [CtxSvc.buildContext, List.length_map, List.length_drop]
    omega
  · show (List.map _ (conversation.messages.drop _)) <:+ _
    rw [List.map_drop]
    exact List.drop_suffix _ _
  · simp only [CtxSvc.buildContext, List.length_map, List.length_drop]
    omega

/-- Counterexample for C1: at a complaint intent with confidence 0.8 and
no flags, the spec's six-rule predicate (and `models/intent.py`) answer
true via the complaint rule, while `models/conversation.py` answers
false — the two source predicates do not compute the same rule set. -/
theorem c1_counterexample :
    specShouldHandoff IntentType.complaint (4/5) false [] (7/10) = true
    ∧ IntentPy.Intent.should_handoff
        { type := IntentType.complaint, confidence := 4/5,
          requires_human := false, metadata := [] } (7/10) = Except.ok true
    ∧ ConvPy.Intent.should_handoff
        { type := IntentType.complaint, confidence := 4/5,
          requires_human := false, metadata := [] } = false := by
  refine ⟨?_, ?_, ?_⟩ <;> with_unfolding_all decide

/-- C1 (amended): the two `should_handoff` definitions implement two
different rule sets.  For every valid threshold, `models/intent.py`
answers true exactly on requires_human, confidence below the threshold,
request_human, or a complaint with confidence below 0.9 (no metadata
rules); `models/conversation.py` answers true exactly on requires_human,
confidence below the fixed 0.7, request_human, a metadata
sentiment_score (default 1.0) below 0.3, or a truthy metadata urgent
value (no complaint rule). -/
theorem c1_two_rule_sets (i : IntentPy.Intent) (j : ConvPy.Intent) (t : ℚ)
    (h0 : 0 ≤ t) (h1 : t ≤ 1) :
    (IntentPy.Intent.should_handoff i t = Except.ok true ↔
      (i.requires_human = true ∨ i.confidence < t
        ∨ i.type = IntentType.request_human
        ∨ (i.type = IntentType.complaint ∧ i.confidence < 9/10)))
    ∧ (ConvPy.Intent.should_handoff j = true ↔
      (j.requires_human = true ∨ j.confidence < 7/10
        ∨ j.type = IntentType.request_human
        ∨ ((dictGet j.metadata (chars "sentiment_score")).getD
            (MetaV.num 1)).toRat < 3/10
        ∨ ((dictGet j.metadata (chars "urgent")).getD
            (MetaV.boolv false)).truthy = true)) := by
  constructor
  · unfold IntentPy.Intent.should_handoff
    rw [if_neg (not_not_intro ⟨h0, h1⟩)]
    split_ifs with h2 h3 h4 h5 <;> simp_all
  · unfold ConvPy.Intent.should_handoff
    split_ifs with h2 h3 h4 h5 h6 <;> simp_all

/-- Witness for C1 (amended) at the threshold 0.7 and a pair of
high-confidence question intents. -/
theorem c1_two_rule_sets_witness :
    ((0 : ℚ) ≤ 7/10 ∧ (7 : ℚ)/10 ≤ 1)
    ∧ (ConvPy.Intent.should_handoff
        { type := IntentType.question, confidence := 1,
          requires_human := false, metadata := [] } = true ↔
      (false = true ∨ (1 : ℚ) < 7/10
        ∨ IntentType.question = IntentType.request_human
        ∨ ((dictGet [] (chars "sentiment_score")).getD
            (MetaV.num 1)).toRat < 3/10
        ∨ ((dictGet [] (chars "urgent")).getD
            (MetaV.boolv false)).truthy = true)) :=
  ⟨⟨by with_unfolding_all decide, by with_unfolding_all decide⟩,
   (c1_two_rule_sets
     { type := IntentType.question, confidence := 1,
       requires_human := false, metadata := [] }
     { type := IntentType.question, confidence := 1,
       requires_human := false, metadata := [] }
     (7/10) (by with_unfolding_all decide) (by with_unfolding_all decide)).2⟩

theorem add_message_ok (conv : ConvPy.Conversation) (m : ConvPy.Message)
    (now : ℕ) (h : m.conversation_id = conv.id) :
    ∃ updated, ConvPy.add_message conv m now = Except.ok updated
      ∧ updated.id = conv.id
      ∧ updated.messages = conv.messages ++ [m]
      ∧ updated.ai_confidence_avg
          = (conv.ai_confidence_avg * (conv.messages.length : ℚ)
              + m.ai_confidence) / ((conv.messages.length : ℚ) + 1) := by
  have hne : ¬ (m.conversation_id ≠ conv.id) := not_not_intro h
  have havg : (conv.ai_confidence_avg
        * ((((conv.messages ++ [m]).length - 1 : ℕ)) : ℚ) + m.ai_confidence)
        / (((conv.messages ++ [m]).length : ℕ) : ℚ)
      = (conv.ai_confidence_avg * (conv.messages.length : ℚ) + m.ai_confidence)
        / ((conv.messages.length : ℚ) + 1) := by
    simp only [List.length_append, List.length_cons, List.length_nil,
      Nat.add_sub_cancel]
    push_cast
    ring_nf
  unfold ConvPy.add_message
  rcases hi : m.intent with _ | intent
  · exact ⟨{ conv with
             messages := conv.messages ++ [m],
             ai_confidence_avg := (conv.ai_confidence_avg
               * ((((conv.messages ++ [m]).length - 1 : ℕ)) : ℚ)
               + m.ai_confidence) / (((conv.messages ++ [m]).length : ℕ) : ℚ),
             updated_at := now },
      by rw [if_neg hne], rfl, rfl, havg⟩
  · by_cases hs : intent.should_handoff
    · exact ⟨{ conv with
               messages := conv.messages ++ [m],
               ai_confidence_avg := (conv.ai_confidence_avg
                 * ((((conv.messages ++ [m]).length - 1 : ℕ)) : ℚ)
                 + m.ai_confidence) / (((conv.messages ++ [m]).length : ℕ) : ℚ),
               current_intent := some intent,
               status := ConvPy.ConversationStatus.human_needed,
               updated_at := now },
        by rw [if_neg hne]; simp [hs], rfl, rfl, havg⟩
    · exact ⟨{ conv with
               messages := conv.messages ++ [m],
               ai_confidence_avg := (conv.ai_confidence_avg
                 * ((((conv.messages ++ [m]).length - 1 : ℕ)) : ℚ)
                 + m.ai_confidence) / (((conv.messages ++ [m]).length : ℕ) : ℚ),
               current_intent := some intent,
               updated_at := now },
        by rw [if_neg hne]; simp [hs], rfl, rfl, havg⟩

theorem addMessages_spec (ms : List ConvPy.Message) :
    ∀ (conv : ConvPy.Conversation) (now : ℕ),
    (∀ m ∈ ms, m.conversation_id = conv.id) →
    ∃ updated, ConvPy.addMessages conv ms now = Except.ok updated
      ∧ updated.id = conv.id
      ∧ updated.messages = conv.messages ++ ms
      ∧ updated.ai_confidence_avg * (updated.messages.length : ℚ)
          = conv.ai_confidence_avg * (conv.messages.length : ℚ)
            + (ms.map ConvPy.Message.ai_confidence).sum := by
  induction ms with
  | nil =>
      intro conv now _
      exact ⟨conv, rfl, rfl, by simp, by simp⟩
  | cons m rest ih =>
      intro conv now hown
      obtain ⟨c1, h1, hid, hmsgs, havg⟩ :=
        add_message_ok conv m now (hown m (by simp))
      obtain ⟨u, h2, hid2, hmsgs2, havg2⟩ :=
        ih c1 now (fun x hx => by rw [hid]; exact hown x (by simp [hx]))
      have hstep : ConvPy.addMessages conv (m :: rest) now
          = ConvPy.addMessages c1 rest now := by
        show (ConvPy.add_message conv m now >>=
          fun c => ConvPy.addMessages c rest now) = ConvPy.addMessages c1 rest now
        rw [h1]
        rfl
      have hlen1 : (c1.messages.length : ℚ) = (conv.messages.length : ℚ) + 1 := by
        rw [hmsgs]
        push_cast [List.length_append, List.length_cons, List.length_nil]
        ring
      have hpos : ((conv.messages.length : ℚ) + 1) ≠ 0 := by positivity
      refine ⟨u, by rw [hstep, h2], by rw [hid2, hid], ?_, ?_⟩
      · rw [hmsgs2, hmsgs]
        simp
      · rw [havg2, havg, hlen1, List.map_cons, List.sum_cons,
          div_mul_cancel₀ _ hpos]
        ring

/-- C3: starting from a conversation with an empty message list,
appending messages with confidences `c_1..c_n` through `add_message`
leaves `ai_confidence_avg` equal to the arithmetic mean
`(c_1 + ... + c_n) / n`, exactly, over the rational model of the float
arithmetic — the incremental `avg' = (avg*(n-1) + new)/n` recurrence of
`models/conversation.py` lines 197-202 computes the plain running
mean. -/
theorem c3_running_mean (conv : ConvPy.Conversation)
    (ms : List ConvPy.Message) (now : ℕ) (hempty : conv.messages = [])
    (hne : ms ≠ []) (hown : ∀ m ∈ ms, m.conversation_id = conv.id) :
    ∃ updated, ConvPy.addMessages conv ms now = Except.ok updated
      ∧ updated.ai_confidence_avg
          = (ms.map ConvPy.Message.ai_confidence).sum / (ms.length : ℚ) := by
  obtain ⟨u, h1, _, hmsgs, havg⟩ := addMessages_spec ms conv now hown
  refine ⟨u, h1, ?_⟩
  rw [hempty] at hmsgs havg
  simp only [List.nil_append, List.length_nil, Nat.cast_zero, mul_zero,
    zero_add] at hmsgs havg
  have hlen : (ms.length : ℚ) ≠ 0 := by
    simpa using hne
  rw [eq_div_iff hlen]
  rw [hmsgs] at havg
  exact havg

/-- Witness for C3: two messages with confidences 1/2 and 1 yield the
mean 3/4. -/
theorem c3_running_mean_witness :
    ∃ updated, ConvPy.addMessages
        { id := 7, lead_id := 1, status := ConvPy.ConversationStatus.active,
          messages := [], current_intent := none, human_agent_id := none,
          ai_confidence_avg := 1, metadata := [], created_at := 0,
          updated_at := 0 }
        [{ id := 1, conversation_id := 7, content := chars "hello",
           direction := ConvPy.MessageDirection.inbound, ai_confidence := 1/2,
           intent := none, metadata := [], created_at := 0, updated_at := 0 },
         { id := 2, conversation_id := 7, content := chars "there",
           direction := ConvPy.MessageDirection.inbound, ai_confidence := 1,
           intent := none, metadata := [], created_at := 0, updated_at := 0 }] 0
        = Except.ok updated
      ∧ updated.ai_confidence_avg
          = (([{ id := 1, conversation_id := 7, content := chars "hello",
                 direction := ConvPy.MessageDirection.inbound,
                 ai_confidence := 1/2, intent := none, metadata := [],
                 created_at := 0, updated_at := 0 },
               { id := 2, conversation_id := 7, content := chars "there",
                 direction := ConvPy.MessageDirection.inbound,
                 ai_confidence := 1, intent := none, metadata := [],
                 created_at := 0, updated_at := 0 }] :
              List ConvPy.Message).map ConvPy.Message.ai_confidence).sum / 2 :=
  c3_running_mean _ _ 0 rfl (by with_unfolding_all decide)
    (by with_unfolding_all decide)

/-- Counterexample for C9: the classifier output
`{"type": "banana", "confidence": 0.5, "requires_human": false}` cannot
be parsed into the expected intent structure (invalid enum value), yet
`classify_intent` raises a Pydantic validation error instead of
returning the degraded unknown intent — the request fails. -/
theorem c9_counterexample :
    LLMSvc.classifyIntent (Except.ok (Json.obj
        [(chars "type", Json.str (chars "banana")),
         (chars "confidence", Json.num (1/2)),
         (chars "requires_human", Json.jbool false)]))
      = Except.error LLMSvc.PyErr.validationError := by
  with_unfolding_all rfl

/-- C9 (amended): `classify_intent` degrades to
`Intent(type=unknown, confidence=0.0, requires_human=True)` exactly on
the failures the `except (json.JSONDecodeError, KeyError)` handler
catches — a JSON parse failure, or a parsed object lacking one of the
keys `type`/`confidence`/`requires_human`.  Valid-JSON non-object
outputs raise an uncaught `TypeError`, and structurally complete objects
with invalid field values raise an uncaught validation error; those
outputs do fail the request. -/
theorem c9_degrade_on_parse_or_key_failure (kvs : List (List Char × Json))
    (hmissing : jsonGet kvs (chars "type") = none
      ∨ jsonGet kvs (chars "confidence") = none
      ∨ jsonGet kvs (chars "requires_human") = none) :
    LLMSvc.classifyIntent (Except.error ()) = Except.ok LLMSvc.fallbackIntent
    ∧ LLMSvc.classifyIntent (Except.ok (Json.obj kvs))
        = Except.ok LLMSvc.fallbackIntent
    ∧ LLMSvc.classifyIntent (Except.ok (Json.str (chars "hello")))
        = Except.error LLMSvc.PyErr.typeError
    ∧ LLMSvc.classifyIntent (Except.ok (Json.obj
        [(chars "type", Json.str (chars "question")),
         (chars "confidence", Json.num 2),
         (chars "requires_human", Json.jbool false)]))
        = Except.error LLMSvc.PyErr.validationError := by
  refine ⟨rfl, ?_, rfl, by with_unfolding_all rfl⟩
  cases h1 : jsonGet kvs (chars "type") <;>
    cases h2 : jsonGet kvs (chars "confidence") <;>
      cases h3 : jsonGet kvs (chars "requires_human") <;>
        simp_all [LLMSvc.classifyIntent]

/-- Witness for C9 (amended): the empty object lacks all three keys. -/
theorem c9_degrade_witness :
    jsonGet [] (chars "type") = none
    ∧ LLMSvc.classifyIntent (Except.ok (Json.obj []))
        = Except.ok LLMSvc.fallbackIntent :=
  ⟨rfl, (c9_degrade_on_parse_or_key_failure [] (Or.inl rfl)).2.1⟩

/-- Counterexample for C5: a stored *empty-string* payload fails JSON
parsing (as `json.loads("")` raises `JSONDecodeError`, reflected by the
instantiated `loads`), yet `get_conversation_context` reaches the cache
miss branch via Python's falsy `if not raw_data:` test and returns the
fresh empty context without error — a corrupt stored payload is not
always distinguished from a never-written key. -/
theorem c5_counterexample :
    (fun _ : List Char => (none : Option Json)) [] = none
    ∧ CtxSvc.getConversationContext (fun _ => none) (fun _ => none)
        CtxSvc.initialBreaker 0 (Except.ok (some []))
      = (Except.ok (CtxSvc.emptyContext 0), CtxSvc.initialBreaker) :=
  ⟨rfl, rfl⟩

/-- C5 (amended): with the circuit breaker closed,
`get_conversation_context` returns the fresh empty context on a
never-written key *and* on a stored empty-string payload (Python
falsiness conflates the two); every other stored payload is decoded by
`decodePayload`, whose failures — decompression or JSON parse errors —
are always surfaced as the corrupt-data `ValueError`, never as the
empty context. -/
theorem c5_miss_vs_corrupt (loads : List Char → Option Json)
    (decompress : List Char → Option (List Char)) (cb : CtxSvc.CircuitBreaker)
    (now : ℕ) (hclosed : (CtxSvc.isCircuitOpen cb now).1 = false) :
    CtxSvc.getConversationContext loads decompress cb now (Except.ok none)
      = (Except.ok (CtxSvc.emptyContext now), (CtxSvc.isCircuitOpen cb now).2)
    ∧ CtxSvc.getConversationContext loads decompress cb now
        (Except.ok (some []))
      = (Except.ok (CtxSvc.emptyContext now), (CtxSvc.isCircuitOpen cb now).2)
    ∧ (∀ raw, raw ≠ [] →
        CtxSvc.getConversationContext loads decompress cb now
          (Except.ok (some raw))
        = (CtxSvc.decodePayload loads decompress raw,
           (CtxSvc.isCircuitOpen cb now).2))
    ∧ (∀ raw e, CtxSvc.decodePayload loads decompress raw = Except.error e →
        e = CtxSvc.CtxErr.valueError) := by
  refine ⟨?_, ?_, ?_, ?_⟩
  · simp [CtxSvc.getConversationContext, hclosed]
  · simp [CtxSvc.getConversationContext, hclosed]
  · intro raw hraw
    simp [CtxSvc.getConversationContext, hclosed, hraw]
  · intro raw e h
    unfold CtxSvc.decodePayload at h
    split at h
    · split at h
      · cases h
        rfl
      · split at h
        · cases h
          rfl
        · cases h
    · split at h
      · cases h
        rfl
      · cases h

/-- Witness for C5 (amended): fresh breaker, cache miss at time 3. -/
theorem c5_miss_vs_corrupt_witness :
    (CtxSvc.isCircuitOpen CtxSvc.initialBreaker 3).1 = false
    ∧ CtxSvc.getConversationContext (fun _ => some Json.null) (fun _ => none)
        CtxSvc.initialBreaker 3 (Except.ok none)
      = (Except.ok (CtxSvc.emptyContext 3),
         (CtxSvc.isCircuitOpen CtxSvc.initialBreaker 3).2) :=
  ⟨rfl, (c5_miss_vs_corrupt (fun _ => some Json.null) (fun _ => none)
    CtxSvc.initialBreaker 3 rfl).1⟩

/-- C6: the compressed round-trip is broken by an off-by-one in the
read path.  `update_context` stores `"compressed:" + <compressed>`
(an 11-character marker), but `get_conversation_context` strips only 10
characters (`raw_data[10:]`), so the decompressor receives the stored
compressed bytes with a stray `':'` prepended — never the string the
compressor produced.  (Independently, the store path UTF-8-decodes raw
zlib bytes, which itself raises for real zlib output; the embedding
models that decode/encode pair as the identity, which is generous to
the code.) -/
theorem c6_compressed_path_bug (loads : List Char → Option Json)
    (decompress : List Char → Option (List Char))
    (compress : List Char → List Char) (data : List Char)
    (hbig : 1024 < data.length)
    (hgain : ((compress data).length : ℚ) / (data.length : ℚ) < 9/10) :
    CtxSvc.storedData compress data = CtxSvc.compressedMarker ++ compress data
    ∧ (CtxSvc.compressedMarker ++ compress data).drop 10
        = ':' :: compress data
    ∧ ':' :: compress data ≠ compress data
    ∧ CtxSvc.decodePayload loads decompress (CtxSvc.storedData compress data)
        = (match decompress (':' :: compress data) with
           | none => Except.error CtxSvc.CtxErr.valueError
           | some plain =>
               match loads plain with
               | none => Except.error CtxSvc.CtxErr.valueError
               | some ctx => Except.ok ctx) := by
  have hstored : CtxSvc.storedData compress data
      = CtxSvc.compressedMarker ++ compress data := by
    unfold CtxSvc.storedData
    rw [if_pos ⟨hbig, hgain⟩]
  have hdrop : ∀ c : List Char,
      (CtxSvc.compressedMarker ++ c).drop 10 = ':' :: c := fun _ => rfl
  have hpre : CtxSvc.compressedMarker.isPrefixOf
      (CtxSvc.compressedMarker ++ compress data) = true :=
    List.isPrefixOf_iff_prefix.mpr (List.prefix_append _ _)
  refine ⟨hstored, hdrop _, ?_, ?_⟩
  · intro hcontra
    have hlen := congrArg List.length hcontra
    simp at hlen
  · rw [hstored]
    unfold CtxSvc.decodePayload
    rw [if_pos hpre, hdrop]

set_option maxRecDepth 16384 in
/-- Witness for C6 at a 1025-character payload and a compressor
achieving ratio 1/1025: the read side hands `':' :: <compressed>` to
the decompressor. -/
theorem c6_compressed_path_bug_witness :
    1024 < (List.replicate 1025 'a').length
    ∧ ((((fun _ : List Char => ['z']) (List.replicate 1025 'a')).length : ℚ)
        / ((List.replicate 1025 'a').length : ℚ) < 9/10)
    ∧ (CtxSvc.compressedMarker
        ++ (fun _ : List Char => ['z']) (List.replicate 1025 'a')).drop 10
        = ':' :: (fun _ : List Char => ['z']) (List.replicate 1025 'a') := by
  refine ⟨by simp, by with_unfolding_all decide, ?_⟩
  exact (c6_compressed_path_bug (fun _ => none) (fun _ => none)
    (fun _ => ['z']) (List.replicate 1025 'a') (by simp)
    (by with_unfolding_all decide)).2.1

/-- Counterexample for C8: three failures interleaved with successful
gets (so never three *consecutive* failures) still open the breaker —
successes do not reset the count — and the subsequent get with a healthy
backend is rejected, where the claim predicts it succeeds. -/
theorem c8_counterexample :
    (let loads : List Char → Option Json := fun _ => none
     let dec : List Char → Option (List Char) := fun _ => none
     let s1 := (CtxSvc.getConversationContext loads dec CtxSvc.initialBreaker 0
       (Except.error ())).2
     let s2 := (CtxSvc.getConversationContext loads dec s1 1 (Except.ok none)).2
     let s3 := (CtxSvc.getConversationContext loads dec s2 2
       (Except.error ())).2
     let s4 := (CtxSvc.getConversationContext loads dec s3 3 (Except.ok none)).2
     let s5 := (CtxSvc.getConversationContext loads dec s4 4
       (Except.error ())).2
     s5 = { failures := 3, last_failure := some 4 }
       ∧ (CtxSvc.getConversationContext loads dec s5 5 (Except.ok none)).1
           = Except.error CtxSvc.CtxErr.redisError) :=
  ⟨rfl, rfl⟩

/-- C8 (amended): the breaker opens once 3 failures have been
*recorded* — not necessarily consecutive, since successful operations
leave the count untouched.  While open (elapsed seconds since the last
recorded failure, taken mod 86400 per `timedelta.seconds`, below 30),
every `get` is rejected immediately with a Redis error without touching
the backend, and the rejection itself records a further failure;
`update_context` is not gated by the breaker at all; once the timeout
has passed, the gating check resets the breaker and the `get`
proceeds. -/
theorem c8_breaker_behavior (loads : List Char → Option Json)
    (decompress : List Char → Option (List Char)) (cb : CtxSvc.CircuitBreaker)
    (now t : ℕ) (hfail : 3 ≤ cb.failures) (hlast : cb.last_failure = some t) :
    ((now - t) % 86400 < 30 →
      ∀ backend, CtxSvc.getConversationContext loads decompress cb now backend
        = (Except.error CtxSvc.CtxErr.redisError, CtxSvc.recordFailure cb now))
    ∧ (30 ≤ (now - t) % 86400 →
      CtxSvc.getConversationContext loads decompress cb now (Except.ok none)
        = (Except.ok (CtxSvc.emptyContext now), CtxSvc.initialBreaker))
    ∧ (∀ (dumps : Json → List Char) (compress : List Char → List Char)
        (kvs : List (List Char × Json)) (flag : Bool),
        CtxSvc.updateContext dumps compress cb now (Json.obj kvs)
          (fun _ => Except.ok flag)
        = (Except.ok flag, cb))
    ∧ (∀ cb2 : CtxSvc.CircuitBreaker, cb2.failures < 3 →
        CtxSvc.getConversationContext loads decompress cb2 now (Except.ok none)
          = (Except.ok (CtxSvc.emptyContext now), cb2)) := by
  refine ⟨?_, ?_, ?_, ?_⟩
  · intro hlt backend
    have hopen : CtxSvc.isCircuitOpen cb now = (true, cb) := by
      simp only [CtxSvc.isCircuitOpen, hlast]
      rw [if_pos hfail, if_pos hlt]
    simp [CtxSvc.getConversationContext, hopen]
  · intro hge
    have hreset : CtxSvc.isCircuitOpen cb now = (false, CtxSvc.initialBreaker) := by
      simp only [CtxSvc.isCircuitOpen, hlast]
      rw [if_pos hfail, if_neg (not_lt.mpr hge)]
    simp [CtxSvc.getConversationContext, hreset]
  · intro dumps compress kvs flag
    rfl
  · intro cb2 hlt2
    have hclosed : CtxSvc.isCircuitOpen cb2 now = (false, cb2) := by
      rcases hn : cb2.last_failure with _ | t2 <;>
        simp only [CtxSvc.isCircuitOpen, hn]
      rw [if_neg (by omega)]
    simp [CtxSvc.getConversationContext, hclosed]

/-- Witness for C8 (amended): an open breaker (3 recorded failures, 10
seconds elapsed) rejects a get against a healthy backend and records the
rejection. -/
theorem c8_breaker_behavior_witness :
    (3 : ℕ) ≤ 3
    ∧ CtxSvc.getConversationContext (fun _ => none) (fun _ => none)
        { failures := 3, last_failure := some 0 } 10 (Except.ok none)
      = (Except.error CtxSvc.CtxErr.redisError,
         CtxSvc.recordFailure { failures := 3, last_failure := some 0 } 10) :=
  ⟨by decide,
   (c8_breaker_behavior (fun _ => none) (fun _ => none)
     { failures := 3, last_failure := some 0 } 10 0 (by decide) rfl).1
     (by decide) (Except.ok none)⟩

/-- C2: `process_message` never returns the outbound message the claim
describes, on either path.  Both response `Message(...)` constructions
(`llm_service.py` lines 152-158 and 161-167) omit the required `id`
field of the `Message` model, so Pydantic validation fails and the call
raises instead of returning.  Evaluated here at the spec's own handoff
test vector (request_human / requires_human / confidence 0.9) and at its
generation test vector (greeting / confidence 0.95). -/
theorem c2_process_message_missing_id :
    LLMSvc.processMessage
        { id := 1, lead_id := 2, status := ConvPy.ConversationStatus.active,
          messages := [], current_intent := none, human_agent_id := none,
          ai_confidence_avg := 1, metadata := [], created_at := 0,
          updated_at := 0 }
        (Except.ok { type := IntentType.request_human, confidence := 9/10,
                     requires_human := true, metadata := [] })
        (chars "Sure, happy to help.") 0
      = Except.error LLMSvc.PyErr.validationError
    ∧ LLMSvc.processMessage
        { id := 1, lead_id := 2, status := ConvPy.ConversationStatus.active,
          messages := [], current_intent := none, human_agent_id := none,
          ai_confidence_avg := 1, metadata := [], created_at := 0,
          updated_at := 0 }
        (Except.ok { type := IntentType.greeting, confidence := 19/20,
                     requires_human := false, metadata := [] })
        (chars "Hello!") 0
      = Except.error LLMSvc.PyErr.validationError := by
  constructor <;> with_unfolding_all decide
